import Mathlib

/-!
Formalization of the OEI-MS backend ingestion and fan-out pipeline.

This file gives a shallow embedding, in Lean 4, of the behaviorally relevant
parts of the Python backend:

* `Sensor.check_alarm_conditions` (app/models/sensor.py): threshold alarm
  evaluation over a JSON rule structure;
* `MQTTService._process_message` / `_handle_sensor_data` /
  `_cache_sensor_data` / `_on_disconnect` / `_message_loop`
  (app/services/mqtt_service.py): message routing, per-message side effects,
  the Redis per-device history list, and the reconnect state machine;
* `ConnectionManager` and `WebSocketService` handlers
  (app/services/websocket_service.py): the connection registry (primary set,
  room index, user index), broadcast failure cleanup, room changes and the
  leave-room handler.

Numeric sensor values are modelled as rationals (the Python side uses floats;
all properties verified here are order/equality properties that coincide).
Python dicts keyed by strings are modelled as functions into `Option`,
Python sets of connections as duplicate-free lists, and Python truthiness of
optional strings and of the JSON alarm-rules object is modelled explicitly.
-/

/-- Python truthiness of an `Optional[str]`: `None` and `""` are falsy. -/
def optStrTruthy : Option String → Bool
  | none => false
  | some s => !(s == "")

/-! ## Alarm evaluation (app/models/sensor.py, Sensor.check_alarm_conditions) -/

/-- One entry of the JSON list `alarm_rules["rules"]`.  Every field is read
with `dict.get`, so every field is optional; `enabled` defaults to `True`
(`rule.get("enabled", True)`). -/
structure AlarmRule where
  name : Option String
  condition : Option String
  threshold : Option ℚ
  severity : Option String
  message : Option String
  enabled : Option Bool
deriving DecidableEq

/-- The JSON object stored in the `alarm_rules` column.  `hasKeys` records
whether the dict is non-empty (Python truthiness of a dict); `rules` is
`alarm_rules.get("rules", [])` (an empty dict yields `[]`). -/
structure AlarmRules where
  hasKeys : Bool
  rules : List AlarmRule
deriving DecidableEq

/-- The alarm-relevant columns of a `Sensor` row. -/
structure SensorAlarmCfg where
  alarm_enabled : Bool
  alarm_rules : Option AlarmRules
deriving DecidableEq

/-- The comparison dispatch in the body of `check_alarm_conditions`:
six operator branches, anything else never triggers. -/
def condTriggered (c : String) (v t : ℚ) : Bool :=
  if c = ">" then decide (v > t)
  else if c = "<" then decide (v < t)
  else if c = ">=" then decide (v ≥ t)
  else if c = "<=" then decide (v ≤ t)
  else if c = "==" then decide (v = t)
  else if c = "!=" then decide (v ≠ t)
  else false

/-- One element of the returned `triggered_alarms` list (the fields that do
not merely echo sensor identity). -/
structure TriggeredAlarm where
  rule_name : String
  severity : String
  value : ℚ
  threshold : ℚ
deriving DecidableEq

/-- The `for rule in rules` loop of `check_alarm_conditions`: a disabled rule
is skipped; a rule fires only when `condition` is truthy (present and
non-empty) and `threshold` is not `None` and the comparison holds. -/
def checkRulesLoop (v : ℚ) : List AlarmRule → List TriggeredAlarm
  | [] => []
  | r :: rs =>
    if !(r.enabled.getD true) then checkRulesLoop v rs
    else
      match r.condition, r.threshold with
      | some c, some t =>
          if c ≠ "" ∧ condTriggered c v t then
            { rule_name := r.name.getD "未命名规则",
              severity := r.severity.getD "info",
              value := v, threshold := t } :: checkRulesLoop v rs
          else checkRulesLoop v rs
      | _, _ => checkRulesLoop v rs

/-- `Sensor.check_alarm_conditions(value)`: returns `[]` when device-level
`alarm_enabled` is falsy or `alarm_rules` is falsy (`None` or an empty dict),
otherwise evaluates every enabled rule of `alarm_rules.get("rules", [])`. -/
def check_alarm_conditions (s : SensorAlarmCfg) (v : ℚ) : List TriggeredAlarm :=
  if !s.alarm_enabled then []
  else
    match s.alarm_rules with
    | none => []
    | some ar => if !ar.hasKeys then [] else checkRulesLoop v ar.rules

/-- A sensor configuration holding exactly one enabled rule with the given
comparison operator and threshold, as in the spec's worked example. -/
def singleRuleCfg (c : String) (t : ℚ) : SensorAlarmCfg :=
  { alarm_enabled := true,
    alarm_rules := some
      { hasKeys := true,
        rules := [{ name := some "r", condition := some c, threshold := some t,
                    severity := some "warning", message := none, enabled := none }] } }

theorem check_single_rule (c : String) (t v : ℚ) :
    check_alarm_conditions (singleRuleCfg c t) v =
      if c ≠ "" ∧ condTriggered c v t then
        [{ rule_name := "r", severity := "warning", value := v, threshold := t }]
      else [] := by
  simp [check_alarm_conditions, singleRuleCfg, checkRulesLoop]

/-! ## Redis per-device history list
(app/services/mqtt_service.py, MQTTService._cache_sensor_data)

For each accepted reading the service performs
`LPUSH sensor:{id}:series entry` followed by `LTRIM sensor:{id}:series 0 99`,
so one accepted reading conses the entry and truncates to 100. -/

/-- The effect of one accepted reading on the cached series list:
`lpush` then `ltrim 0 99`. -/
def cacheSeriesPush {α : Type} (l : List α) (entry : α) : List α :=
  (entry :: l).take 100

/-- The cached series list after a sequence of accepted readings, oldest
first in `entries`, starting from list `init`. -/
def cacheSeriesRun {α : Type} (init : List α) (entries : List α) : List α :=
  entries.foldl cacheSeriesPush init

theorem take_append_take {α : Type} (x y : List α) (k : Nat) :
    (x ++ y.take k).take k = (x ++ y).take k := by
  rw [List.take_append_eq_append_take, List.take_append_eq_append_take, List.take_take]
  have h : min (k - x.length) k = k - x.length := by omega
  rw [h]

theorem cacheSeriesRun_eq {α : Type} (init entries : List α)
    (h : init.length ≤ 100) :
    cacheSeriesRun init entries = (entries.reverse ++ init).take 100 := by
  induction entries generalizing init with
  | nil =>
      simp [cacheSeriesRun, List.take_of_length_le h]
  | cons e es ih =>
      have hlen : (cacheSeriesPush init e).length ≤ 100 := by
        simp [cacheSeriesPush, List.length_take]
      calc cacheSeriesRun init (e :: es)
          = cacheSeriesRun (cacheSeriesPush init e) es := rfl
        _ = (es.reverse ++ cacheSeriesPush init e).take 100 := ih _ hlen
        _ = (es.reverse ++ ((e :: init).take 100)).take 100 := rfl
        _ = (es.reverse ++ (e :: init)).take 100 := take_append_take _ _ _
        _ = ((e :: es).reverse ++ init).take 100 := by
              simp

/-- C1: alarm evaluation respects the comparison operator exactly.  For a
single enabled numeric rule, the returned alarm list is non-empty precisely
when the mathematical comparison of value against threshold holds, for each
of the six operators; in particular with condition ">" and threshold 35,
value 40 triggers exactly one alarm, values 30 and 35 trigger none (strict),
and with ">=" and threshold 35 the value 35 does trigger. -/
theorem alarm_operator_semantics_exact (v t : ℚ) :
    (check_alarm_conditions (singleRuleCfg ">" t) v ≠ [] ↔ v > t)
  ∧ (check_alarm_conditions (singleRuleCfg "<" t) v ≠ [] ↔ v < t)
  ∧ (check_alarm_conditions (singleRuleCfg ">=" t) v ≠ [] ↔ v ≥ t)
  ∧ (check_alarm_conditions (singleRuleCfg "<=" t) v ≠ [] ↔ v ≤ t)
  ∧ (check_alarm_conditions (singleRuleCfg "==" t) v ≠ [] ↔ v = t)
  ∧ (check_alarm_conditions (singleRuleCfg "!=" t) v ≠ [] ↔ v ≠ t)
  ∧ (check_alarm_conditions (singleRuleCfg ">" 35) 40).length = 1
  ∧ check_alarm_conditions (singleRuleCfg ">" 35) 30 = []
  ∧ check_alarm_conditions (singleRuleCfg ">" 35) 35 = []
  ∧ (check_alarm_conditions (singleRuleCfg ">=" 35) 35).length = 1 := by
  refine ⟨?_, ?_, ?_, ?_, ?_, ?_, ?_, ?_, ?_, ?_⟩
  · rw [check_single_rule]; by_cases h : v > t <;> simp [condTriggered, h]
  · rw [check_single_rule]; by_cases h : v < t <;> simp [condTriggered, h]
  · rw [check_single_rule]; by_cases h : v ≥ t <;> simp [condTriggered, h]
  · rw [check_single_rule]; by_cases h : v ≤ t <;> simp [condTriggered, h]
  · rw [check_single_rule]; by_cases h : v = t <;> simp [condTriggered, h]
  · rw [check_single_rule]; by_cases h : v = t <;> simp [condTriggered, h]
  · decide
  · decide
  · decide
  · decide

/-- C9: if the device-level `alarm_enabled` flag is false, or `alarm_rules`
is missing (`None`) or an empty JSON object, then alarm evaluation returns
the empty list for every value, regardless of any per-rule flags. -/
theorem alarm_disabled_or_empty_rules_never_triggers (s : SensorAlarmCfg) (v : ℚ)
    (h : s.alarm_enabled = false ∨ s.alarm_rules = none ∨
         ∃ ar, s.alarm_rules = some ar ∧ ar.hasKeys = false) :
    check_alarm_conditions s v = [] := by
  rcases h with h | h | ⟨ar, h1, h2⟩
  · simp [check_alarm_conditions, h]
  · cases hb : s.alarm_enabled <;> simp [check_alarm_conditions, h, hb]
  · cases hb : s.alarm_enabled <;> simp [check_alarm_conditions, h1, h2, hb]

/-- Witness for C9: a sensor whose only rule would fire at value 100, but
whose device-level flag is off, produces no alarms. -/
theorem alarm_disabled_or_empty_rules_never_triggers_witness :
    check_alarm_conditions
      ⟨false, some ⟨true, [⟨some "hot", some ">", some 35, some "warning", none, some true⟩]⟩⟩
      100 = [] :=
  alarm_disabled_or_empty_rules_never_triggers _ 100 (Or.inl rfl)

set_option maxRecDepth 100000 in
/-- C3: the cached per-device history list never exceeds 100 entries and is
ordered most-recent-first: one accepted reading conses the new entry and
truncates to 100, a run of writes from a list of length at most 100 leaves
exactly the reversed write sequence prefixed to the old content truncated to
100, and a run of 500 writes from empty leaves exactly 100 entries with the
newest (the 500th reading) first. -/
theorem cached_series_capped_most_recent_first :
    (∀ (l : List ℚ) (e : ℚ), (cacheSeriesPush l e).length ≤ 100)
  ∧ (∀ (init entries : List ℚ), init.length ≤ 100 →
        cacheSeriesRun init entries = (entries.reverse ++ init).take 100)
  ∧ (cacheSeriesRun ([] : List Nat) (List.range 500)).length = 100
  ∧ (cacheSeriesRun ([] : List Nat) (List.range 500)).head? = some 499 := by
  refine ⟨?_, fun init entries h => cacheSeriesRun_eq init entries h, ?_, ?_⟩
  · intro l e; simp [cacheSeriesPush, List.length_take]
  · decide
  · decide

/-- Witness for C3: pushing readings 3 then 4 onto a cached list [2, 1]
leaves [4, 3, 2, 1], newest first. -/
theorem cached_series_capped_most_recent_first_witness :
    cacheSeriesRun ([2, 1] : List ℚ) [3, 4] = [4, 3, 2, 1] := by
  have h := cached_series_capped_most_recent_first.2.1 [2, 1] [3, 4] (by norm_num)
  simpa using h

/-! ## MQTT message routing and per-message side effects
(app/services/mqtt_service.py)

`_process_message` decodes the payload as JSON (a decode failure increments
`messages_failed`), dispatches on a substring of the topic, and then
increments `messages_processed`; every per-topic handler swallows its own
exceptions and returns early on unknown devices or missing fields, so the
handlers never reach the outer failure branch.  Topics are strings; the
device identifier is `topic.split('/')[1]`. -/

/-- Python's `str.split(sep)` for a one-character separator, over the
character list of the string. -/
def splitOnChar (sep : Char) (s : List Char) : List (List Char) :=
  s.foldr (fun c acc =>
    if c = sep then [] :: acc
    else match acc with
      | [] => [[c]]
      | g :: gs => (c :: g) :: gs) [[]]

/-- Python's substring test `pat in s`, over character lists. -/
def hasSubstr (pat : List Char) : List Char → Bool
  | [] => pat == []
  | c :: rest => pat.isPrefixOf (c :: rest) || hasSubstr pat rest

/-- `'pat' in topic` on strings. -/
def topicContains (topic pat : String) : Bool :=
  hasSubstr pat.data topic.data

/-- `topic.split('/')[1]`; `none` models the `IndexError` that the handlers
swallow. -/
def topicSegment1 (topic : String) : Option (List Char) :=
  (splitOnChar '/' topic.data)[1]?

/-- A JSON value arriving in the `value` field of a data message. -/
inductive PyValue
  | num (q : ℚ)
  | str (s : String)
deriving DecidableEq

/-- The relevant rows of the relational store: a sensor's primary key,
unique device identifier and alarm configuration. -/
structure SensorRec where
  id : Nat
  name : String
  device_id : List Char
  alarm : SensorAlarmCfg
deriving DecidableEq

/-- The fields a parsed message dict may carry (each read with `.get`). -/
structure MsgData where
  value : Option PyValue
  quality : Option String
  status : Option String
deriving DecidableEq

/-- The persistence and fan-out side effects of processing one message:
committed relational updates to sensor and gateway rows, time-series points
written, cache keys written, and the types of the websocket frames fanned
out, in order. -/
structure Effects where
  sensorCommits : List (List Char)
  gatewayCommits : List (List Char)
  influxWrites : List (Nat × PyValue × String)
  cacheWrites : List Nat
  broadcasts : List String
deriving DecidableEq

/-- Zero side effects. -/
def noEffects : Effects :=
  { sensorCommits := [], gatewayCommits := [], influxWrites := [],
    cacheWrites := [], broadcasts := [] }

/-- `MQTTService._handle_sensor_data`: looks up the sensor by the device id
from the topic; unknown device or missing `value` field returns with no side
effects; otherwise commits the sensor row, writes the time-series point,
writes the cache keys, broadcasts one alarm frame per triggered rule (for a
numeric value) and then one sensor-data frame. -/
def handle_sensor_data (sensors : List SensorRec) (topic : String)
    (data : MsgData) : Effects :=
  match topicSegment1 topic with
  | none => noEffects
  | some device_id =>
    match sensors.find? (fun s => s.device_id == device_id) with
    | none => noEffects
    | some sensor =>
      match data.value with
      | none => noEffects
      | some v =>
        let alarms := match v with
          | .num q => check_alarm_conditions sensor.alarm q
          | .str _ => []
        { sensorCommits := [sensor.device_id],
          gatewayCommits := [],
          influxWrites := [(sensor.id, v, data.quality.getD "good")],
          cacheWrites := [sensor.id],
          broadcasts := alarms.map (fun _ => "alarm") ++ ["sensor_data"] }

/-- `MQTTService._handle_status_message`: updates and broadcasts the status
of a known sensor or gateway, otherwise does nothing. -/
def handle_status_message (sensors : List SensorRec)
    (gateways : List (List Char)) (topic : String) : Effects :=
  match topicSegment1 topic with
  | none => noEffects
  | some device_id =>
    if topicContains topic "sensors" then
      match sensors.find? (fun s => s.device_id == device_id) with
      | some sensor =>
          { noEffects with sensorCommits := [sensor.device_id],
                           broadcasts := ["sensor_status"] }
      | none => noEffects
    else if topicContains topic "gateways" then
      if gateways.contains device_id then
        { noEffects with gatewayCommits := [device_id],
                         broadcasts := ["gateway_status"] }
      else noEffects
    else noEffects

/-- `MQTTService._handle_heartbeat`: commits the gateway row of a known
gateway, otherwise does nothing. -/
def handle_heartbeat (gateways : List (List Char)) (topic : String) : Effects :=
  match topicSegment1 topic with
  | none => noEffects
  | some device_id =>
    if gateways.contains device_id then
      { noEffects with gatewayCommits := [device_id] }
    else noEffects

/-- `MQTTService._handle_alert`: broadcasts one alert frame. -/
def handle_alert : Effects :=
  { noEffects with broadcasts := ["alert"] }

/-- The inbound payload after the JSON decode attempt. -/
inductive MqttPayload
  | malformed
  | parsed (data : MsgData)
deriving DecidableEq

/-- The service's message counters (`MQTTService.stats`). -/
structure MqttStats where
  messages_received : Nat
  messages_processed : Nat
  messages_failed : Nat
deriving DecidableEq

/-- `MQTTService._process_message`: a JSON decode failure increments
`messages_failed` and does nothing else; otherwise the message is dispatched
on topic substrings, each handler swallowing its own errors, and
`messages_processed` is incremented. -/
def process_message (sensors : List SensorRec) (gateways : List (List Char))
    (stats : MqttStats) (topic : String) (payload : MqttPayload) :
    MqttStats × Effects :=
  match payload with
  | .malformed =>
      ({ stats with messages_failed := stats.messages_failed + 1 }, noEffects)
  | .parsed data =>
      let eff :=
        if topicContains topic "/data" then handle_sensor_data sensors topic data
        else if topicContains topic "/status" then
          handle_status_message sensors gateways topic
        else if topicContains topic "/heartbeat" then
          handle_heartbeat gateways topic
        else if topicContains topic "/alert" then handle_alert
        else noEffects
      ({ stats with messages_processed := stats.messages_processed + 1 }, eff)

/-- C2 as stated is false on the code: a data message for an unknown device
produces zero persistence and fan-out side effects, but `_handle_sensor_data`
returns early without raising, so `_process_message` increments
`messages_processed` — the failure counter stays untouched. -/
theorem unknown_device_counted_processed_cex :
    process_message [] [] ⟨0, 0, 0⟩ "sensors/dev9/data"
      (.parsed ⟨some (.num 5), none, none⟩) = (⟨0, 1, 0⟩, noEffects) := by
  decide

/-- C2 (amended): a data message whose device identifier matches no known
sensor produces zero persistence side effects and zero fan-out events, and
among the service's counters increments exactly the processed counter (the
failure counter is unchanged). -/
theorem unknown_device_dropped_no_effects (sensors : List SensorRec)
    (gateways : List (List Char)) (stats : MqttStats) (topic : String)
    (data : MsgData) (d : List Char)
    (hts : topicContains topic "/data" = true)
    (hseg : topicSegment1 topic = some d)
    (hfind : sensors.find? (fun s => s.device_id == d) = none) :
    process_message sensors gateways stats topic (.parsed data) =
      ({ stats with messages_processed := stats.messages_processed + 1 },
       noEffects) := by
  simp [process_message, handle_sensor_data, hts, hseg, hfind]

/-- Witness for amended C2 at a concrete unknown device. -/
theorem unknown_device_dropped_no_effects_witness :
    process_message [] [] ⟨3, 4, 5⟩ "sensors/dev9/data"
      (.parsed ⟨some (.num 5), none, none⟩) =
      ({ (⟨3, 4, 5⟩ : MqttStats) with messages_processed := 4 + 1 },
       noEffects) :=
  unknown_device_dropped_no_effects [] [] ⟨3, 4, 5⟩ "sensors/dev9/data"
    ⟨some (.num 5), none, none⟩ "dev9".data (by decide) (by decide) rfl

/-- C5 as stated is false on the code for its missing-value half: a data
message for a known device that lacks the `value` field is dropped with no
side effects, but the processed counter — not the failed counter — is
incremented, because the early return in `_handle_sensor_data` does not
raise. -/
theorem missing_value_counted_processed_cex :
    process_message [⟨1, "t1", "dev1".data, ⟨true, none⟩⟩] [] ⟨0, 0, 0⟩
      "sensors/dev1/data" (.parsed ⟨none, none, none⟩) =
      (⟨0, 1, 0⟩, noEffects) := by
  decide

/-- C5 (amended): an unparseable payload is dropped with no side effects and
increments exactly the failed counter; a data message for a known device
missing its required value field is dropped with no side effects but
increments exactly the processed counter.  Neither path performs a retry:
processing returns after adjusting the counters. -/
theorem malformed_or_missing_value_dropped :
    (∀ (sensors : List SensorRec) (gateways : List (List Char))
        (stats : MqttStats) (topic : String),
        process_message sensors gateways stats topic .malformed =
          ({ stats with messages_failed := stats.messages_failed + 1 },
           noEffects))
  ∧ (∀ (sensors : List SensorRec) (gateways : List (List Char))
        (stats : MqttStats) (topic : String) (data : MsgData)
        (sensor : SensorRec) (d : List Char),
        topicContains topic "/data" = true →
        topicSegment1 topic = some d →
        sensors.find? (fun s => s.device_id == d) = some sensor →
        data.value = none →
        process_message sensors gateways stats topic (.parsed data) =
          ({ stats with messages_processed := stats.messages_processed + 1 },
           noEffects)) := by
  refine ⟨fun sensors gateways stats topic => rfl, ?_⟩
  intro sensors gateways stats topic data sensor d h1 h2 h3 h4
  simp [process_message, handle_sensor_data, h1, h2, h3, h4]

/-- Witness for amended C5 at a concrete known device with a missing value. -/
theorem malformed_or_missing_value_dropped_witness :
    process_message [⟨1, "t1", "dev1".data, ⟨true, none⟩⟩] [] ⟨7, 2, 0⟩
      "sensors/dev1/data" (.parsed ⟨none, none, none⟩) =
      ({ (⟨7, 2, 0⟩ : MqttStats) with messages_processed := 2 + 1 },
       noEffects) :=
  malformed_or_missing_value_dropped.2 [⟨1, "t1", "dev1".data, ⟨true, none⟩⟩]
    [] ⟨7, 2, 0⟩ "sensors/dev1/data" ⟨none, none, none⟩
    ⟨1, "t1", "dev1".data, ⟨true, none⟩⟩ "dev1".data
    (by decide) (by decide) (by decide) rfl

/-! ## MQTT reconnect behavior
(app/services/mqtt_service.py, `_on_disconnect`, `_reconnect`,
`_message_loop`)

`_on_disconnect` schedules `_reconnect` (a fixed sleep followed by a
connection attempt) only while the attempt counter is below the maximum.
Independently, `_message_loop` runs once a second while the service is
running and calls `_reconnect` whenever the client is disconnected,
regardless of the attempt counter. -/

/-- `MQTTService.max_reconnect_attempts`. -/
def max_reconnect_attempts : Nat := 10

/-- `MQTTService.reconnect_interval` (seconds). -/
def reconnect_interval : Nat := 5

/-- The connection-relevant fields of the service. -/
structure MqttConnState where
  is_running : Bool
  is_connected : Bool
  reconnect_attempts : Nat
deriving DecidableEq

/-- `MQTTService._on_disconnect(rc)`: clears the connected flag; on an
unexpected disconnect (`rc != 0`) it increments the attempt counter and
schedules `_reconnect` only while running and below the maximum.  The
returned flag records whether a reconnect was scheduled. -/
def on_disconnect (s : MqttConnState) (rc : Nat) : MqttConnState × Bool :=
  let s1 : MqttConnState := { s with is_connected := false }
  if rc ≠ 0 then
    if s1.is_running ∧ s1.reconnect_attempts < max_reconnect_attempts then
      ({ s1 with reconnect_attempts := s1.reconnect_attempts + 1 }, true)
    else (s1, false)
  else (s1, false)

/-- The decision inside `MQTTService._reconnect` after its sleep: a
connection attempt is made iff the service is running and disconnected. -/
def reconnect_calls_connect (s : MqttConnState) : Bool :=
  s.is_running && !s.is_connected

/-- One iteration of `MQTTService._message_loop`: while running, a
disconnected client triggers `_reconnect`, hence a connection attempt. -/
def message_loop_tick_attempts (s : MqttConnState) : Bool :=
  if !s.is_connected && s.is_running then reconnect_calls_connect s
  else false

/-- `MQTTService._connect` on success: sets the connected flag and resets
the attempt counter to zero. -/
def connect_success (s : MqttConnState) : MqttConnState :=
  { s with is_connected := true, reconnect_attempts := 0 }

/-- C4 as stated is false on the code: with the attempt counter at the
maximum (10), `_on_disconnect` no longer schedules a reconnect, but the
still-running `_message_loop` attempts a reconnect on its next tick, so the
disconnected state is not terminal and further reconnect attempts are made
without any external restart. -/
theorem reconnect_cap_not_terminal_cex :
    (on_disconnect ⟨true, true, 10⟩ 1).2 = false
  ∧ (on_disconnect ⟨true, true, 10⟩ 1).1 = ⟨true, false, 10⟩
  ∧ message_loop_tick_attempts ⟨true, false, 10⟩ = true := by
  decide

/-- C4 (amended): on an unexpected disconnect the callback schedules a
reconnect and increments the attempt counter while the counter is below the
maximum of 10, and stops scheduling once the maximum is reached; however the
message loop keeps attempting a reconnect on every tick while the service is
running and disconnected — also beyond the cap — so the disconnected state
is terminal only after an external stop clears the running flag. -/
theorem reconnect_cap_and_message_loop (s : MqttConnState) (rc : Nat) :
    (rc ≠ 0 → s.is_running = true →
        s.reconnect_attempts < max_reconnect_attempts →
        on_disconnect s rc =
          ({ s with is_connected := false,
                    reconnect_attempts := s.reconnect_attempts + 1 }, true))
  ∧ (max_reconnect_attempts ≤ s.reconnect_attempts →
        (on_disconnect s rc).2 = false)
  ∧ (s.is_running = true → s.is_connected = false →
        message_loop_tick_attempts s = true)
  ∧ (s.is_running = false → message_loop_tick_attempts s = false) := by
  refine ⟨?_, ?_, ?_, ?_⟩
  · intro h1 h2 h3
    simp [on_disconnect, h1, h2, h3]
  · intro h
    have hlt : ¬ (s.reconnect_attempts < max_reconnect_attempts) := by omega
    by_cases hrc : rc = 0 <;> simp [on_disconnect, hrc, hlt]
  · intro h1 h2
    simp [message_loop_tick_attempts, reconnect_calls_connect, h1, h2]
  · intro h
    simp [message_loop_tick_attempts, reconnect_calls_connect, h]

/-- Witness for amended C4: below the cap a reconnect is scheduled with the
counter incremented; at the cap none is scheduled, yet a message-loop tick
still attempts one. -/
theorem reconnect_cap_and_message_loop_witness :
    on_disconnect ⟨true, true, 3⟩ 1 = (⟨true, false, 4⟩, true) ∧
    (on_disconnect ⟨true, false, 10⟩ 7).2 = false ∧
    message_loop_tick_attempts ⟨true, false, 10⟩ = true :=
  ⟨(reconnect_cap_and_message_loop ⟨true, true, 3⟩ 1).1
      (by decide) rfl (by decide),
   (reconnect_cap_and_message_loop ⟨true, false, 10⟩ 7).2.1 (by decide),
   (reconnect_cap_and_message_loop ⟨true, false, 10⟩ 7).2.2.1 rfl rfl⟩

/-! ## WebSocket broadcast failure cleanup
(app/services/websocket_service.py, `ConnectionManager.broadcast`,
`broadcast_to_room`, `send_to_user`)

All three fan-out paths send to every target concurrently
(`asyncio.gather(..., return_exceptions=True)`) and afterwards disconnect
the connections whose send raised.  `broadcast_to_room` and `send_to_user`
map the i-th gather result back to the i-th element of the same snapshot
they built the tasks from; `broadcast` builds its tasks from the members of
`active_connections` not in `exclude` but maps the i-th result to
`list(self.active_connections)[i]`, the i-th element of the unfiltered
connection list. -/

/-- One live client connection, identified by its handle. -/
abbrev ConnId := Nat

/-- The targets a fan-out actually sends to: the snapshot members not in the
exclude set. -/
def broadcastTargets (conns exclude : List ConnId) : List ConnId :=
  conns.filter (fun c => !(exclude.contains c))

/-- The `for i, result in enumerate(results)` collection of failed
connections when results and snapshot are aligned (the i-th result belongs
to the i-th snapshot element); `raises c` says the send to `c` raised. -/
def gatherFailedRemovals (snapshot : List ConnId) (raises : ConnId → Bool) :
    List ConnId :=
  (List.range snapshot.length).filterMap (fun i =>
    if (snapshot[i]?).map raises = some true then snapshot[i]? else none)

/-- The failed-connection collection of `ConnectionManager.broadcast`: tasks
are built for the non-excluded connections, but the i-th result is mapped to
the i-th element of the unfiltered connection list. -/
def broadcastFailedRemovals (active exclude : List ConnId)
    (raises : ConnId → Bool) : List ConnId :=
  let targets := broadcastTargets active exclude
  (List.range targets.length).filterMap (fun i =>
    if (targets[i]?).map raises = some true then active[i]? else none)

/-- The failed-connection collection of
`ConnectionManager.broadcast_to_room`, which indexes the same snapshot it
sent to. -/
def roomBroadcastFailedRemovals (members exclude : List ConnId)
    (raises : ConnId → Bool) : List ConnId :=
  gatherFailedRemovals (broadcastTargets members exclude) raises

/-- The failed-connection collection of `ConnectionManager.send_to_user`,
which indexes the same copied snapshot it sent to. -/
def userSendFailedRemovals (userConns : List ConnId)
    (raises : ConnId → Bool) : List ConnId :=
  gatherFailedRemovals userConns raises

theorem gatherFailedRemovals_eq_filter (raises : ConnId → Bool) :
    ∀ snapshot : List ConnId,
      gatherFailedRemovals snapshot raises = snapshot.filter raises := by
  intro snapshot
  induction snapshot with
  | nil => rfl
  | cons x xs ih =>
      unfold gatherFailedRemovals at ih ⊢
      rw [List.length_cons, List.range_succ_eq_map, List.filterMap_cons,
          List.filterMap_map]
      have hcomp :
          ((fun i =>
              if ((x :: xs)[i]?).map raises = some true then (x :: xs)[i]?
              else none) ∘ Nat.succ)
            = (fun i =>
              if (xs[i]?).map raises = some true then xs[i]? else none) := by
        funext i
        simp
      rw [hcomp, ih]
      by_cases hx : raises x
      · simp [hx, List.filter_cons]
      · simp [hx, List.filter_cons]

/-- C6: the room-scoped and per-user fan-out paths remove exactly the
connections whose delivery raised, and every non-excluded snapshot member
has its delivery attempted.  The global `broadcast`, however, maps the i-th
gather result to the i-th element of the unfiltered connection list: with
connections [7, 8], 7 excluded and the send to 8 raising, the single
delivery attempt goes to 8, yet the connection removed is 7 — the healthy
excluded connection is torn down and the failing one is kept.  (With an
empty exclude set the indices line up and the failing connection itself is
removed.) -/
theorem broadcast_failure_removal_behavior :
    (∀ (members exclude : List ConnId) (raises : ConnId → Bool),
        roomBroadcastFailedRemovals members exclude raises =
          (broadcastTargets members exclude).filter raises)
  ∧ (∀ (userConns : List ConnId) (raises : ConnId → Bool),
        userSendFailedRemovals userConns raises = userConns.filter raises)
  ∧ broadcastTargets [7, 8] [7] = [8]
  ∧ broadcastFailedRemovals [7, 8] [7] (fun c => c == 8) = [7]
  ∧ broadcastFailedRemovals [7, 8] [] (fun c => c == 8) = [8] := by
  refine ⟨?_, ?_, by decide, by decide, by decide⟩
  · intro members exclude raises
    exact gatherFailedRemovals_eq_filter raises (broadcastTargets members exclude)
  · intro userConns raises
    exact gatherFailedRemovals_eq_filter raises userConns

/-! ## WebSocket connection registry
(app/services/websocket_service.py, `ConnectionManager`)

The registry keeps the primary connection set (`active_connections`), the
per-connection info dict (`connection_info`, whose claim-relevant entries
are `user_id` and `room`; timestamps and per-connection counters are not
modelled), the room index (`room_connections`) and the user index
(`user_connections`).  Dicts are modelled as functions into `Option` (a
deleted key maps to `none`), the member sets as duplicate-free lists. -/

/-- The claim-relevant entries of a `connection_info` record. -/
structure ConnInfo where
  user_id : Option String
  room : Option String
deriving DecidableEq

/-- The registry state of a `ConnectionManager`. -/
structure CMState where
  active_connections : ConnId → Bool
  connection_info : ConnId → Option ConnInfo
  room_connections : String → Option (List ConnId)
  user_connections : String → Option (List ConnId)

/-- Python set add. -/
def setAdd (l : List ConnId) (c : ConnId) : List ConnId :=
  if l.contains c then l else c :: l

/-- `ConnectionManager._join_room`: creates the room's member set when
missing, then adds the connection. -/
def join_room (st : CMState) (ws : ConnId) (room : String) : CMState :=
  let members := (st.room_connections room).getD []
  { st with room_connections :=
      fun r => if r = room then some (setAdd members ws)
               else st.room_connections r }

/-- `ConnectionManager._associate_user`. -/
def associate_user (st : CMState) (ws : ConnId) (uid : String) : CMState :=
  let members := (st.user_connections uid).getD []
  { st with user_connections :=
      fun u => if u = uid then some (setAdd members ws)
               else st.user_connections u }

/-- The room removal performed by `disconnect` and `change_room`:
`if room and room in self.room_connections:` discard the connection and
delete the key when its set became empty. -/
def removeFromRoom (st : CMState) (ws : ConnId) (room : Option String) :
    CMState :=
  if optStrTruthy room then
    match st.room_connections (room.getD "") with
    | some members =>
        { st with room_connections :=
            fun r2 => if r2 = room.getD "" then
                        (if (members.filter (fun c => !(c == ws))).isEmpty
                         then none
                         else some (members.filter (fun c => !(c == ws))))
                      else st.room_connections r2 }
    | none => st
  else st

/-- The user-index removal performed by `disconnect`:
`if user_id and user_id in self.user_connections:` discard and delete the
key when empty. -/
def removeFromUser (st : CMState) (ws : ConnId) (uid : Option String) :
    CMState :=
  if optStrTruthy uid then
    match st.user_connections (uid.getD "") with
    | some members =>
        { st with user_connections :=
            fun u2 => if u2 = uid.getD "" then
                        (if (members.filter (fun c => !(c == ws))).isEmpty
                         then none
                         else some (members.filter (fun c => !(c == ws))))
                      else st.user_connections u2 }
    | none => st
  else st

/-- `ConnectionManager.connect` (registry part): adds the connection to the
primary set, records its info, joins the room only when one is given and
truthy, and associates the user only when given and truthy.  (Stats,
timestamps and the welcome frame are not registry state.) -/
def connect (st : CMState) (ws : ConnId) (user_id room : Option String) :
    CMState :=
  let st1 : CMState :=
    { st with
      active_connections := fun c => if c = ws then true
                                     else st.active_connections c,
      connection_info := fun c => if c = ws then some ⟨user_id, room⟩
                                  else st.connection_info c }
  let st2 := if optStrTruthy room then join_room st1 ws (room.getD "")
             else st1
  if optStrTruthy user_id then associate_user st2 ws (user_id.getD "")
  else st2

/-- `ConnectionManager.disconnect`: reads the connection's recorded info
(`{}` when absent), removes it from the primary set, from its recorded
room's and user's index entries, and deletes its info record. -/
def disconnect (st : CMState) (ws : ConnId) : CMState :=
  let info := st.connection_info ws
  let uid := info.bind ConnInfo.user_id
  let room := info.bind ConnInfo.room
  let st1 : CMState :=
    { st with active_connections := fun c => if c = ws then false
                                             else st.active_connections c }
  let st2 := removeFromRoom st1 ws room
  let st3 := removeFromUser st2 ws uid
  { st3 with connection_info := fun c => if c = ws then none
                                         else st3.connection_info c }

/-- `ConnectionManager.change_room`: removes the connection from its old
recorded room, joins the new room, and updates the recorded room when the
connection has an info record. -/
def change_room (st : CMState) (ws : ConnId) (new_room : String) : CMState :=
  let old_room := (st.connection_info ws).bind ConnInfo.room
  let st1 := removeFromRoom st ws old_room
  let st2 := join_room st1 ws new_room
  match st2.connection_info ws with
  | some i =>
      { st2 with connection_info :=
          fun c => if c = ws then some { i with room := some new_room }
                   else st2.connection_info c }
  | none => st2

/-- Membership of a connection in a room's index entry. -/
def inRoom (st : CMState) (ws : ConnId) (r : String) : Prop :=
  ∃ m, st.room_connections r = some m ∧ ws ∈ m

/-- Membership of a connection in a user's index entry. -/
def inUser (st : CMState) (ws : ConnId) (u : String) : Prop :=
  ∃ m, st.user_connections u = some m ∧ ws ∈ m

/-- The room recorded in the connection's primary info record. -/
def recordedRoom (st : CMState) (ws : ConnId) : Option String :=
  (st.connection_info ws).bind ConnInfo.room

/-- The user recorded in the connection's primary info record. -/
def recordedUser (st : CMState) (ws : ConnId) : Option String :=
  (st.connection_info ws).bind ConnInfo.user_id

/-- The connection occurs in the room index only under its recorded
(non-empty) room: the consistency every reachable registry state has. -/
def wsRoomConsistent (st : CMState) (ws : ConnId) : Prop :=
  ∀ r, inRoom st ws r → recordedRoom st ws = some r ∧ r ≠ ""

/-- The connection occurs in the user index only under its recorded
(non-empty) user identifier. -/
def wsUserConsistent (st : CMState) (ws : ConnId) : Prop :=
  ∀ u, inUser st ws u → recordedUser st ws = some u ∧ u ≠ ""

/-- The empty registry. -/
def emptyCM : CMState :=
  { active_connections := fun _ => false,
    connection_info := fun _ => none,
    room_connections := fun _ => none,
    user_connections := fun _ => none }

theorem join_room_active (st : CMState) (ws : ConnId) (room : String) :
    (join_room st ws room).active_connections = st.active_connections := rfl

theorem join_room_info (st : CMState) (ws : ConnId) (room : String) :
    (join_room st ws room).connection_info = st.connection_info := rfl

theorem join_room_users (st : CMState) (ws : ConnId) (room : String) :
    (join_room st ws room).user_connections = st.user_connections := rfl

theorem join_room_rooms (st : CMState) (ws : ConnId) (room r2 : String) :
    (join_room st ws room).room_connections r2 =
      if r2 = room then some (setAdd ((st.room_connections room).getD []) ws)
      else st.room_connections r2 := rfl

theorem associate_user_active (st : CMState) (ws : ConnId) (u : String) :
    (associate_user st ws u).active_connections = st.active_connections := rfl

theorem associate_user_info (st : CMState) (ws : ConnId) (u : String) :
    (associate_user st ws u).connection_info = st.connection_info := rfl

theorem associate_user_rooms (st : CMState) (ws : ConnId) (u : String) :
    (associate_user st ws u).room_connections = st.room_connections := rfl

theorem removeFromRoom_active (st : CMState) (ws : ConnId) (room : Option String) :
    (removeFromRoom st ws room).active_connections = st.active_connections := by
  unfold removeFromRoom
  split
  · split <;> rfl
  · rfl

theorem removeFromRoom_info (st : CMState) (ws : ConnId) (room : Option String) :
    (removeFromRoom st ws room).connection_info = st.connection_info := by
  unfold removeFromRoom
  split
  · split <;> rfl
  · rfl

theorem removeFromRoom_users (st : CMState) (ws : ConnId) (room : Option String) :
    (removeFromRoom st ws room).user_connections = st.user_connections := by
  unfold removeFromRoom
  split
  · split <;> rfl
  · rfl

theorem removeFromUser_active (st : CMState) (ws : ConnId) (uid : Option String) :
    (removeFromUser st ws uid).active_connections = st.active_connections := by
  unfold removeFromUser
  split
  · split <;> rfl
  · rfl

theorem removeFromUser_info (st : CMState) (ws : ConnId) (uid : Option String) :
    (removeFromUser st ws uid).connection_info = st.connection_info := by
  unfold removeFromUser
  split
  · split <;> rfl
  · rfl

theorem removeFromUser_rooms (st : CMState) (ws : ConnId) (uid : Option String) :
    (removeFromUser st ws uid).room_connections = st.room_connections := by
  unfold removeFromUser
  split
  · split <;> rfl
  · rfl

theorem removeFromRoom_rooms (st : CMState) (ws : ConnId) (room : Option String)
    (r2 : String) :
    (removeFromRoom st ws room).room_connections r2 =
      if optStrTruthy room = true ∧ r2 = room.getD "" then
        (match st.room_connections r2 with
         | some members =>
             if (members.filter (fun c => !(c == ws))).isEmpty then none
             else some (members.filter (fun c => !(c == ws)))
         | none => none)
      else st.room_connections r2 := by
  unfold removeFromRoom
  by_cases ht : optStrTruthy room = true
  · simp only [ht, if_true, true_and]
    cases hm : st.room_connections (room.getD "") with
    | none =>
        by_cases he : r2 = room.getD ""
        · subst he
          simp [hm]
        · simp [he]
    | some members =>
        by_cases he : r2 = room.getD ""
        · subst he
          simp [hm]
        · simp [he]
  · simp [ht]

theorem removeFromUser_userlookup (st : CMState) (ws : ConnId)
    (uid : Option String) (u2 : String) :
    (removeFromUser st ws uid).user_connections u2 =
      if optStrTruthy uid = true ∧ u2 = uid.getD "" then
        (match st.user_connections u2 with
         | some members =>
             if (members.filter (fun c => !(c == ws))).isEmpty then none
             else some (members.filter (fun c => !(c == ws)))
         | none => none)
      else st.user_connections u2 := by
  unfold removeFromUser
  by_cases ht : optStrTruthy uid = true
  · simp only [ht, if_true, true_and]
    cases hm : st.user_connections (uid.getD "") with
    | none =>
        by_cases he : u2 = uid.getD ""
        · subst he
          simp [hm]
        · simp [he]
    | some members =>
        by_cases he : u2 = uid.getD ""
        · subst he
          simp [hm]
        · simp [he]
  · simp [ht]

theorem mem_setAdd_iff (l : List ConnId) (c x : ConnId) :
    x ∈ setAdd l c ↔ x = c ∨ x ∈ l := by
  unfold setAdd
  by_cases hc : c ∈ l
  · rw [if_pos (by simpa using hc)]
    constructor
    · exact Or.inr
    · rintro (rfl | hx)
      · exact hc
      · exact hx
  · rw [if_neg (by simpa using hc)]
    simp [List.mem_cons]

theorem CMState.extEq (a b : CMState)
    (h1 : a.active_connections = b.active_connections)
    (h2 : a.connection_info = b.connection_info)
    (h3 : a.room_connections = b.room_connections)
    (h4 : a.user_connections = b.user_connections) : a = b := by
  cases a
  cases b
  simp_all

theorem disconnect_active (st : CMState) (ws : ConnId) :
    (disconnect st ws).active_connections =
      fun c => if c = ws then false else st.active_connections c := by
  simp only [disconnect, removeFromUser_active, removeFromRoom_active]

theorem disconnect_info (st : CMState) (ws : ConnId) :
    (disconnect st ws).connection_info =
      fun c => if c = ws then none else st.connection_info c := by
  simp only [disconnect, removeFromUser_info, removeFromRoom_info]

theorem disconnect_rooms (st : CMState) (ws : ConnId) (r2 : String) :
    (disconnect st ws).room_connections r2 =
      (removeFromRoom st ws (recordedRoom st ws)).room_connections r2 := by
  simp only [disconnect, removeFromUser_rooms]
  rw [removeFromRoom_rooms, removeFromRoom_rooms]
  rfl

theorem disconnect_users (st : CMState) (ws : ConnId) (u2 : String) :
    (disconnect st ws).user_connections u2 =
      (removeFromUser st ws (recordedUser st ws)).user_connections u2 := by
  simp only [disconnect]
  rw [removeFromUser_userlookup, removeFromUser_userlookup, removeFromRoom_users]
  rfl

theorem connect_info (st : CMState) (ws : ConnId) (u room : Option String) :
    (connect st ws u room).connection_info =
      fun c => if c = ws then some ⟨u, room⟩ else st.connection_info c := by
  unfold connect
  by_cases hu : optStrTruthy u = true <;> by_cases hr : optStrTruthy room = true <;>
    simp [hu, hr, associate_user_info, join_room_info]

theorem connect_rooms (st : CMState) (ws : ConnId) (u room : Option String)
    (r2 : String) :
    (connect st ws u room).room_connections r2 =
      if optStrTruthy room = true ∧ r2 = room.getD "" then
        some (setAdd ((st.room_connections (room.getD "")).getD []) ws)
      else st.room_connections r2 := by
  unfold connect
  by_cases hu : optStrTruthy u = true <;> by_cases hr : optStrTruthy room = true <;>
    simp [hu, hr, associate_user_rooms, join_room_rooms]

theorem change_room_info_some (st : CMState) (ws : ConnId) (new : String)
    (i : ConnInfo) (h : st.connection_info ws = some i) :
    (change_room st ws new).connection_info =
      fun c => if c = ws then some { i with room := some new }
               else st.connection_info c := by
  simp only [change_room, join_room_info, removeFromRoom_info, h]

theorem change_room_rooms (st : CMState) (ws : ConnId) (new r2 : String) :
    (change_room st ws new).room_connections r2 =
      CMState.room_connections
        (join_room (removeFromRoom st ws (recordedRoom st ws)) ws new) r2 := by
  simp only [change_room, join_room_info, removeFromRoom_info]
  cases h : st.connection_info ws <;> simp [h, recordedRoom]

theorem removeFromRoom_clears (st : CMState) (ws : ConnId)
    (hcons : wsRoomConsistent st ws) (r2 : String) :
    ¬ inRoom (removeFromRoom st ws (recordedRoom st ws)) ws r2 := by
  rintro ⟨m, hm, hmem⟩
  rw [removeFromRoom_rooms] at hm
  by_cases hc : optStrTruthy (recordedRoom st ws) = true ∧
      r2 = (recordedRoom st ws).getD ""
  · rw [if_pos hc] at hm
    cases hrr : st.room_connections r2 with
    | none => rw [hrr] at hm; simp at hm
    | some members =>
        rw [hrr] at hm
        by_cases he : (members.filter (fun c => !(c == ws))).isEmpty = true
        · simp [he] at hm
        · simp [he] at hm
          rw [← hm] at hmem
          simp [List.mem_filter] at hmem
  · rw [if_neg hc] at hm
    obtain ⟨hrec, hne⟩ := hcons r2 ⟨m, hm, hmem⟩
    apply hc
    constructor
    · simp [hrec, optStrTruthy, hne]
    · simp [hrec]

theorem removeFromUser_clears (st : CMState) (ws : ConnId)
    (hcons : wsUserConsistent st ws) (u2 : String) :
    ¬ inUser (removeFromUser st ws (recordedUser st ws)) ws u2 := by
  rintro ⟨m, hm, hmem⟩
  rw [removeFromUser_userlookup] at hm
  by_cases hc : optStrTruthy (recordedUser st ws) = true ∧
      u2 = (recordedUser st ws).getD ""
  · rw [if_pos hc] at hm
    cases hrr : st.user_connections u2 with
    | none => rw [hrr] at hm; simp at hm
    | some members =>
        rw [hrr] at hm
        by_cases he : (members.filter (fun c => !(c == ws))).isEmpty = true
        · simp [he] at hm
        · simp [he] at hm
          rw [← hm] at hmem
          simp [List.mem_filter] at hmem
  · rw [if_neg hc] at hm
    obtain ⟨hrec, hne⟩ := hcons u2 ⟨m, hm, hmem⟩
    apply hc
    constructor
    · simp [hrec, optStrTruthy, hne]
    · simp [hrec]

theorem disconnect_idem (st : CMState) (ws : ConnId) :
    disconnect (disconnect st ws) ws = disconnect st ws := by
  have hinfo : (disconnect st ws).connection_info ws = none := by
    rw [disconnect_info]
    simp
  apply CMState.extEq
  · rw [disconnect_active (disconnect st ws) ws, disconnect_active st ws]
    funext c
    by_cases hc : c = ws <;> simp [hc]
  · rw [disconnect_info (disconnect st ws) ws, disconnect_info st ws]
    funext c
    by_cases hc : c = ws <;> simp [hc]
  · funext r2
    rw [disconnect_rooms (disconnect st ws) ws r2, removeFromRoom_rooms]
    simp [recordedRoom, hinfo, optStrTruthy]
  · funext u2
    rw [disconnect_users (disconnect st ws) ws u2, removeFromUser_userlookup]
    have huid : recordedUser (disconnect st ws) ws = none := by
      simp [recordedUser, hinfo]
    simp [huid, optStrTruthy]

/-- A small populated registry: connection 0 is active, recorded with user
"u1" and room "sensors", and indexed accordingly. -/
def demoRegistry : CMState :=
  { active_connections := fun c => c == 0,
    connection_info := fun c => if c = 0 then some ⟨some "u1", some "sensors"⟩
                                else none,
    room_connections := fun r => if r = "sensors" then some [0] else none,
    user_connections := fun u => if u = "u1" then some [0] else none }

/-- C7: disconnecting a connection is idempotent — a second disconnect of
the same connection is a no-op returning the very same registry state — and
afterwards the connection is absent from the primary set and the info dict
unconditionally, and absent from every room-index and user-index entry for
any state in which the connection occurs only under its recorded room and
user (as every state reached through the manager's operations does). -/
theorem disconnect_idempotent_and_cleans :
    (∀ (st : CMState) (ws : ConnId),
        disconnect (disconnect st ws) ws = disconnect st ws)
  ∧ (∀ (st : CMState) (ws : ConnId),
        (disconnect st ws).active_connections ws = false
        ∧ (disconnect st ws).connection_info ws = none)
  ∧ (∀ (st : CMState) (ws : ConnId), wsRoomConsistent st ws →
        ∀ r, ¬ inRoom (disconnect st ws) ws r)
  ∧ (∀ (st : CMState) (ws : ConnId), wsUserConsistent st ws →
        ∀ u, ¬ inUser (disconnect st ws) ws u) := by
  refine ⟨disconnect_idem, ?_, ?_, ?_⟩
  · intro st ws
    constructor
    · rw [disconnect_active]
      simp
    · rw [disconnect_info]
      simp
  · intro st ws hcons r hr
    rcases hr with ⟨m, hm, hmem⟩
    rw [disconnect_rooms] at hm
    exact removeFromRoom_clears st ws hcons r ⟨m, hm, hmem⟩
  · intro st ws hcons u hu
    rcases hu with ⟨m, hm, hmem⟩
    rw [disconnect_users] at hm
    exact removeFromUser_clears st ws hcons u ⟨m, hm, hmem⟩

/-- Witness for C7 on the populated demo registry. -/
theorem disconnect_idempotent_and_cleans_witness :
    disconnect (disconnect demoRegistry 0) 0 = disconnect demoRegistry 0
  ∧ (disconnect demoRegistry 0).active_connections 0 = false
  ∧ (disconnect demoRegistry 0).connection_info 0 = none
  ∧ ¬ inRoom (disconnect demoRegistry 0) 0 "sensors"
  ∧ ¬ inUser (disconnect demoRegistry 0) 0 "u1" := by
  have hr : wsRoomConsistent demoRegistry 0 := by
    intro r hrm
    rcases hrm with ⟨m, hm, hmem⟩
    by_cases h : r = "sensors"
    · subst h
      exact ⟨rfl, by decide⟩
    · simp [demoRegistry, h] at hm
  have hu : wsUserConsistent demoRegistry 0 := by
    intro u hum
    rcases hum with ⟨m, hm, hmem⟩
    by_cases h : u = "u1"
    · subst h
      exact ⟨rfl, by decide⟩
    · simp [demoRegistry, h] at hm
  exact ⟨disconnect_idempotent_and_cleans.1 demoRegistry 0,
         (disconnect_idempotent_and_cleans.2.1 demoRegistry 0).1,
         (disconnect_idempotent_and_cleans.2.1 demoRegistry 0).2,
         disconnect_idempotent_and_cleans.2.2.1 demoRegistry 0 hr "sensors",
         disconnect_idempotent_and_cleans.2.2.2 demoRegistry 0 hu "u1"⟩

/-- C8 as stated is false on the code: `ConnectionManager.connect` joins no
room when none is specified — there is no default-room fallback in the
manager (the `"default"` fallback lives only in the route's query default) —
so a handshake with no room leaves a registered connection that is a member
of zero rooms, not of exactly one. -/
theorem connect_no_default_room_cex :
    (connect emptyCM 0 none none).active_connections 0 = true
  ∧ (connect emptyCM 0 none none).connection_info 0 = some ⟨none, none⟩
  ∧ recordedRoom (connect emptyCM 0 none none) 0 = none
  ∧ (connect emptyCM 0 none none).room_connections = emptyCM.room_connections
  ∧ ¬ inRoom (connect emptyCM 0 none none) 0 "default" := by
  refine ⟨rfl, rfl, rfl, rfl, ?_⟩
  rintro ⟨m, hm, hmem⟩
  rw [connect_rooms] at hm
  simp [optStrTruthy, emptyCM] at hm

/-- C8 (amended): the manager keeps each connection in at most one room and
keeps the recorded room of the primary info record in agreement with the
room index: a handshake that specifies a non-empty room leaves the
connection a member of exactly that room, a handshake that specifies none
leaves it a member of no room at all, and a room change removes it from its
old recorded room and adds it to the new one, leaving exactly the new room.
-/
theorem registry_room_membership_discipline :
    (∀ (st : CMState) (ws : ConnId) (u : Option String) (r : String),
        r ≠ "" → (∀ r2, ¬ inRoom st ws r2) →
        inRoom (connect st ws u (some r)) ws r
        ∧ recordedRoom (connect st ws u (some r)) ws = some r
        ∧ (∀ r2, inRoom (connect st ws u (some r)) ws r2 → r2 = r))
  ∧ (∀ (st : CMState) (ws : ConnId) (u : Option String),
        (∀ r2, ¬ inRoom st ws r2) →
        recordedRoom (connect st ws u none) ws = none
        ∧ (∀ r2, ¬ inRoom (connect st ws u none) ws r2))
  ∧ (∀ (st : CMState) (ws : ConnId) (i : ConnInfo) (r : String),
        r ≠ "" → st.connection_info ws = some i → wsRoomConsistent st ws →
        inRoom (change_room st ws r) ws r
        ∧ recordedRoom (change_room st ws r) ws = some r
        ∧ (∀ r2, inRoom (change_room st ws r) ws r2 → r2 = r)) := by
  refine ⟨?_, ?_, ?_⟩
  · intro st ws u r hr hfresh
    have htruthy : optStrTruthy (some r) = true := by
      simp [optStrTruthy, hr]
    refine ⟨?_, ?_, ?_⟩
    · refine ⟨setAdd ((st.room_connections r).getD []) ws, ?_, ?_⟩
      · rw [connect_rooms]
        simp [htruthy]
      · rw [mem_setAdd_iff]
        exact Or.inl rfl
    · rw [recordedRoom, connect_info]
      simp
    · intro r2 hm2
      rcases hm2 with ⟨m, hm, hmem⟩
      rw [connect_rooms] at hm
      by_cases hc : r2 = r
      · exact hc
      · rw [if_neg (by simp [hc])] at hm
        exact absurd ⟨m, hm, hmem⟩ (hfresh r2)
  · intro st ws u hfresh
    constructor
    · rw [recordedRoom, connect_info]
      simp
    · intro r2 hm2
      rcases hm2 with ⟨m, hm, hmem⟩
      rw [connect_rooms] at hm
      simp [optStrTruthy] at hm
      exact hfresh r2 ⟨m, hm, hmem⟩
  · intro st ws i r hr hinfo hcons
    refine ⟨?_, ?_, ?_⟩
    · refine ⟨setAdd ((CMState.room_connections
          (removeFromRoom st ws (recordedRoom st ws)) r).getD []) ws, ?_, ?_⟩
      · rw [change_room_rooms, join_room_rooms]
        simp
      · rw [mem_setAdd_iff]
        exact Or.inl rfl
    · rw [recordedRoom, change_room_info_some st ws r i hinfo]
      simp
    · intro r2 hm2
      rcases hm2 with ⟨m, hm, hmem⟩
      rw [change_room_rooms, join_room_rooms] at hm
      by_cases hc : r2 = r
      · exact hc
      · rw [if_neg hc] at hm
        exact absurd ⟨m, hm, hmem⟩ (removeFromRoom_clears st ws hcons r2)

/-- Witness for amended C8: a handshake into room "roomA" from the empty
registry lands the connection in exactly that room, in agreement with its
recorded room. -/
theorem registry_room_membership_discipline_witness :
    inRoom (connect emptyCM 0 none (some "roomA")) 0 "roomA"
  ∧ recordedRoom (connect emptyCM 0 none (some "roomA")) 0 = some "roomA" := by
  have hfresh : ∀ r2, ¬ inRoom emptyCM 0 r2 := by
    intro r2 hr
    rcases hr with ⟨m, hm, _⟩
    simp [emptyCM] at hm
  have h := registry_room_membership_discipline.1 emptyCM 0 none "roomA"
    (by decide) hfresh
  exact ⟨h.1, h.2.1⟩

/-! ## Leave-room handling
(app/services/websocket_service.py, `WebSocketService._handle_leave_room`
and `ConnectionManager.send_personal_message`) -/

/-- The outcome of one `websocket.send_text` call: delivered, skipped
because the client state is no longer CONNECTED, or raised. -/
inductive SendOutcome
  | delivered
  | notConnected
  | raises
deriving DecidableEq

/-- A frame sent to one client; only its `type` field matters here. -/
structure Frame where
  type : String
deriving DecidableEq

/-- `ConnectionManager.send_personal_message`: delivers the frame when the
client is connected and the send does not raise; a raising send disconnects
the connection.  Returns the registry state, the frames delivered, and the
success flag. -/
def send_personal_message (st : CMState) (ws : ConnId) (outcome : SendOutcome)
    (frame : Frame) : CMState × List Frame × Bool :=
  match outcome with
  | .delivered => (st, [frame], true)
  | .notConnected => (st, [], false)
  | .raises => (disconnect st ws, [], false)

/-- `WebSocketService._handle_leave_room`: moves the connection to room
"default" via `change_room`, then sends one `room_left` frame to it. -/
def handle_leave_room (st : CMState) (ws : ConnId) (outcome : SendOutcome) :
    CMState × List Frame :=
  ((send_personal_message (change_room st ws "default") ws outcome
      ⟨"room_left"⟩).1,
   (send_personal_message (change_room st ws "default") ws outcome
      ⟨"room_left"⟩).2.1)

/-- C10: processing a leave_room frame for a registered, consistent
connection whose reply delivery succeeds moves the connection into room
"default" — it is a member of "default", of no other room (so it was removed
from its previous room), and its recorded room is "default" — and sends
exactly one reply frame of type room_left. -/
theorem leave_room_moves_to_default (st : CMState) (ws : ConnId) (i : ConnInfo)
    (hinfo : st.connection_info ws = some i)
    (hcons : wsRoomConsistent st ws) :
    (handle_leave_room st ws .delivered).2 = [⟨"room_left"⟩]
  ∧ inRoom (handle_leave_room st ws .delivered).1 ws "default"
  ∧ (∀ r, inRoom (handle_leave_room st ws .delivered).1 ws r → r = "default")
  ∧ recordedRoom (handle_leave_room st ws .delivered).1 ws
      = some "default" := by
  have hfst :
      (handle_leave_room st ws .delivered).1 = change_room st ws "default" :=
    rfl
  refine ⟨rfl, ?_, ?_, ?_⟩
  · rw [hfst]
    refine ⟨setAdd ((CMState.room_connections
        (removeFromRoom st ws (recordedRoom st ws)) "default").getD []) ws,
        ?_, ?_⟩
    · rw [change_room_rooms, join_room_rooms]
      simp
    · rw [mem_setAdd_iff]
      exact Or.inl rfl
  · intro r hm2
    rw [hfst] at hm2
    rcases hm2 with ⟨m, hm, hmem⟩
    rw [change_room_rooms, join_room_rooms] at hm
    by_cases hc : r = "default"
    · exact hc
    · rw [if_neg hc] at hm
      exact absurd ⟨m, hm, hmem⟩ (removeFromRoom_clears st ws hcons r)
  · rw [hfst, recordedRoom, change_room_info_some st ws "default" i hinfo]
    simp

/-- Witness for C10 on the populated demo registry: the reply is a single
room_left frame and the connection's recorded room becomes "default". -/
theorem leave_room_moves_to_default_witness :
    (handle_leave_room demoRegistry 0 .delivered).2 = [⟨"room_left"⟩]
  ∧ inRoom (handle_leave_room demoRegistry 0 .delivered).1 0 "default"
  ∧ recordedRoom (handle_leave_room demoRegistry 0 .delivered).1 0
      = some "default" := by
  have hcons : wsRoomConsistent demoRegistry 0 := by
    intro r hrm
    rcases hrm with ⟨m, hm, hmem⟩
    by_cases h : r = "sensors"
    · subst h
      exact ⟨rfl, by decide⟩
    · simp [demoRegistry, h] at hm
  have h := leave_room_moves_to_default demoRegistry 0
    ⟨some "u1", some "sensors"⟩ rfl hcons
  exact ⟨h.1, h.2.1, h.2.2.2⟩
